import Mathlib

/-!
# Verification of the three-item customization previewer

Shallow embedding of the interactive 3D product previewer: the texture
compositor (per-model canvas drawing routines), the model cache
(`loadGLTFObject`), and the preview state controller
(`setActiveModel` and the three DOM event handlers), together with
theorems settling the specification claims.

Machine real arithmetic of the canvas is modelled over `ℚ`: every
quantity appearing in the drawing routines (canvas sizes, insets,
aspect ratios, the scale/rotation matrices for the exact angles -π and
-π/2) is rational, so the embedding is exact.
-/

namespace ItemCustomization

/-! ## Raster geometry -/

/-- A decoded bitmap, abstracted to its dimensions (the drawing
routines only inspect `width` and `height`). -/
structure Image where
  width : ℚ
  height : ℚ
deriving DecidableEq

/-- An axis-aligned rectangle in (possibly transformed) canvas
coordinates: origin `(x, y)`, extent `(w, h)`. -/
structure Rect where
  x : ℚ
  y : ℚ
  w : ℚ
  h : ℚ
deriving DecidableEq

/-- A 2×2 matrix, row-major, for the canvas context transforms. -/
structure Mat2 where
  a : ℚ
  b : ℚ
  c : ℚ
  d : ℚ
deriving DecidableEq

def Mat2.mul (m n : Mat2) : Mat2 :=
  { a := m.a * n.a + m.b * n.c
    b := m.a * n.b + m.b * n.d
    c := m.c * n.a + m.d * n.c
    d := m.c * n.b + m.d * n.d }

def Mat2.det (m : Mat2) : ℚ := m.a * m.d - m.b * m.c

/-- Apply the inverse of `m` to a point (used to decide which canvas
pixels are covered by a drawn image). -/
def Mat2.invApply (m : Mat2) (p : ℚ × ℚ) : ℚ × ℚ :=
  ((m.d * p.1 - m.b * p.2) / m.det, (-m.c * p.1 + m.a * p.2) / m.det)

def Mat2.scale (sx sy : ℚ) : Mat2 := ⟨sx, 0, 0, sy⟩

/-- `context.rotate(-Math.PI)`: cos(-π) = -1, sin(-π) = 0. -/
def rotNegPi : Mat2 := ⟨-1, 0, 0, -1⟩

/-- `context.rotate(-Math.PI / 2)`: cos = 0, sin = -1, so the matrix
[[cos, -sin], [sin, cos]] is [[0, 1], [-1, 0]]. -/
def rotNegHalfPi : Mat2 := ⟨0, 1, -1, 0⟩

def Rect.containsPt (r : Rect) (p : ℚ × ℚ) : Bool :=
  decide (r.x ≤ p.1) && decide (p.1 ≤ r.x + r.w) &&
    decide (r.y ≤ p.2) && decide (p.2 ≤ r.y + r.h)

/-! ## The texture compositor

The canvas allocated by `setupBaseCanvas` is 2048×2048.  Each routine
of `DRAW_TEXTURE_MAP` first fills the whole surface with the flat
color, then — when an image is present — sets a context transform and
draws the image once into a computed destination rectangle.  A
finished surface is therefore a background color plus at most one
drawn image (destination rectangle + active transform). -/

def canvasWidth : ℚ := 2048

def canvasHeight : ℚ := 2048

/-- Destination rectangle of `context.drawImage` in the `cup` routine
(local coordinates of the transformed context), from source lines
173–194. -/
def cupDrawRect (image : Image) : Rect :=
  let aspectRatio := image.width / image.height
  let originalImageWidth := canvasWidth - canvasWidth / 4
  let originalImageHeight := canvasHeight
  let wh : ℚ × ℚ :=
    if aspectRatio > 1 then
      (originalImageWidth, originalImageHeight * (1 / aspectRatio))
    else if aspectRatio < 1 then
      (originalImageWidth * aspectRatio, originalImageHeight)
    else (originalImageWidth, originalImageHeight)
  { x := canvasWidth * 2 + 150 + (originalImageWidth - wh.1) / 2
    y := -1 * (canvasHeight + canvasHeight / 2) + (originalImageHeight - wh.2) / 2
    w := wh.1
    h := wh.2 }

/-- Context transform of the `cup` routine:
`scale(-1/4, 1/2)` then `rotate(-π)`. -/
def cupTransform : Mat2 := (Mat2.scale (-1/4) (1/2)).mul rotNegPi

/-- Destination rectangle of `context.drawImage` in the `cushion`
routine (local coordinates of the transformed context), from source
lines 206–226. -/
def cushionDrawRect (image : Image) : Rect :=
  let aspectRatio := image.width / image.height
  let insets : ℚ × ℚ :=
    if aspectRatio > 1 then
      (200, 200 + (canvasHeight - canvasWidth / aspectRatio) / 2)
    else if aspectRatio < 1 then
      (200 + (canvasWidth - canvasHeight * aspectRatio) / 2, 200)
    else (200, 200)
  { x := -canvasWidth + insets.1
    y := -2 * canvasHeight + insets.2
    w := canvasWidth - 2 * insets.1
    h := canvasHeight - 2 * insets.2 }

/-- Context transform of the `cushion` routine:
`scale(-1/2, 1/2)` then `rotate(-π/2)`. -/
def cushionTransform : Mat2 := (Mat2.scale (-1/2) (1/2)).mul rotNegHalfPi

/-- One image drawn onto a surface: source bitmap, the context
transform in force, and the destination rectangle in local
coordinates. -/
structure DrawnImage where
  img : Image
  transform : Mat2
  rect : Rect
deriving DecidableEq

/-- A finished raster surface: fixed dimensions, flat background fill,
and at most one drawn image. -/
structure Surface where
  width : ℚ
  height : ℚ
  background : String
  overlay : Option DrawnImage
deriving DecidableEq

/-- What a pixel of a surface shows: the flat fill color, or a sample
of the drawn image. -/
inductive Pixel
  | fill (color : String)
  | imageSample
deriving DecidableEq

/-- Pixel content of a surface at a canvas point: background color
everywhere except under the drawn image (whose footprint is its
destination rectangle mapped through the context transform). -/
def Surface.pixelAt (s : Surface) (p : ℚ × ℚ) : Pixel :=
  match s.overlay with
  | none => .fill s.background
  | some d =>
      if d.rect.containsPt (d.transform.invApply p) then .imageSample
      else .fill s.background

/-- `DRAW_TEXTURE_MAP.cup`. -/
def cupDraw (color : String) (image : Option Image) : Surface :=
  { width := canvasWidth
    height := canvasHeight
    background := color
    overlay := image.map fun img =>
      { img := img, transform := cupTransform, rect := cupDrawRect img } }

/-- `DRAW_TEXTURE_MAP.cushion`. -/
def cushionDraw (color : String) (image : Option Image) : Surface :=
  { width := canvasWidth
    height := canvasHeight
    background := color
    overlay := image.map fun img =>
      { img := img, transform := cushionTransform, rect := cushionDrawRect img } }

/-- The registry `DRAW_TEXTURE_MAP`, keyed by model identifier. -/
def DRAW_TEXTURE_MAP (name : String) :
    Option (String → Option Image → Surface) :=
  if name = "cup" then some cupDraw
  else if name = "cushion" then some cushionDraw
  else none

/-- The compositor contract of the spec:
`composite(modelIdentifier, color, image | none) -> RasterSurface | none`. -/
def composite (name : String) (color : String) (image : Option Image) :
    Option Surface :=
  match DRAW_TEXTURE_MAP name with
  | none => none
  | some drawTexture => some (drawTexture color image)

/-! ## Model cache and preview state

`ModelCache` is a module-level `Map` from identifier to
`{ name, mesh }`.  Mesh handles are opaque objects whose identity
matters (the scene and the material binding refer to them), so they
are modelled by natural-number ids allocated from a counter; the
material currently bound to a mesh (`model.mesh.material = material`)
lives in a `materials` map keyed by mesh id.  `fetchLog` records every
`loader.loadAsync` call, to reason about how often the network fetch
is performed. -/

structure ModelWithMeta where
  name : String
  mesh : ℕ
deriving DecidableEq

/-- Outcome of `loader.loadAsync("/models/" ++ name ++ ".glb")`
followed by the `gltf.scene.children[0]` extraction: the promise may
reject, or resolve with a first child that is / is not a
`THREE.Mesh`. -/
inductive FetchOutcome
  | rejected
  | resolvedNonMesh
  | resolvedMesh
deriving DecidableEq

/-- The asset environment: what the fetch of each identifier would
produce. -/
def Env := String → FetchOutcome

/-- Result of `loadGLTFObject`: the promise can reject (`thrown`,
nothing catches the `loadAsync` rejection) or resolve with
`ModelCache.get(name) ?? null`. -/
inductive LoadResult
  | thrown
  | ok (m : Option ModelWithMeta)
deriving DecidableEq

/-- The whole mutable state of the module: the cache, the fetch log,
the mesh-id allocator, the three controller variables of
`setupImagePreviewControls`, the scene contents, and the material
bound to each mesh. -/
structure World where
  cache : String → Option ModelWithMeta
  fetchLog : List String
  nextMeshId : ℕ
  activeModel : Option ModelWithMeta
  activeImage : Option Image
  color : String
  scene : List ℕ
  materials : ℕ → Option Surface

/-- Record one `loader.loadAsync` call. -/
def fetchWorld (w : World) (name : String) : World :=
  { w with fetchLog := w.fetchLog ++ [name] }

/-- `ModelCache.set(name, { name, mesh })` with a freshly allocated
mesh handle. -/
def storeMesh (w : World) (name : String) : World :=
  { w with
    cache := fun k =>
      if k = name then some { name := name, mesh := w.nextMeshId }
      else w.cache k
    nextMeshId := w.nextMeshId + 1 }

/-- `loadGLTFObject(name)`, source lines 117–134: on a cache miss,
fetch; if the first child is a mesh, store it; a rejected fetch is not
caught and propagates; finally return `ModelCache.get(name) ?? null`. -/
def loadGLTFObject (env : Env) (w : World) (name : String) :
    World × LoadResult :=
  match w.cache name with
  | some _ => (w, .ok (w.cache name))
  | none =>
    match env name with
    | .rejected => (fetchWorld w name, .thrown)
    | .resolvedNonMesh =>
        (fetchWorld w name, .ok ((fetchWorld w name).cache name))
    | .resolvedMesh =>
        (storeMesh (fetchWorld w name) name,
          .ok ((storeMesh (fetchWorld w name) name).cache name))

/-- `applyTexture(model, image, color)`, source lines 230–250: look up
the drawing routine; if none is registered, return without touching
anything; otherwise draw on a fresh 2048×2048 canvas and bind the
result as the mesh's material. -/
def applyTexture (w : World) (model : ModelWithMeta) (image : Option Image)
    (color : String) : World :=
  match DRAW_TEXTURE_MAP model.name with
  | none => w
  | some drawTexture =>
      { w with materials := fun i =>
          if i = model.mesh then some (drawTexture color image)
          else w.materials i }

/-- `setActiveModel(name)`, source lines 257–272.  The `Bool` records
whether an uncaught exception escaped (a rejected `loadAsync`). -/
def setActiveModel (env : Env) (w : World) (name : String) : World × Bool :=
  match loadGLTFObject env w name with
  | (w1, .thrown) => (w1, true)
  | (w1, .ok none) => (w1, false)
  | (w1, .ok (some newModel)) =>
      let w2 :=
        match w1.activeModel with
        | some am => { w1 with scene := w1.scene.filter (fun i => i != am.mesh) }
        | none => w1
      let w3 := { w2 with activeModel := some newModel }
      let w4 := applyTexture w3 newModel w3.activeImage w3.color
      ({ w4 with scene := w4.scene ++ [newModel.mesh] }, false)

/-- Outcome of `createImageBitmap(imageFile)` for the file sitting in
the upload input: it decodes to a bitmap, or throws. -/
inductive DecodeOutcome
  | ok (img : Image)
  | failed
deriving DecidableEq

/-- The three input events of the controller.  `imageUpload none`
means the change event fired with no file selected
(`files?.item(0) ?? null` is null). -/
inductive Event
  | modelSelect (name : String)
  | imageUpload (file : Option DecodeOutcome)
  | colorChange (value : String)

/-- One sequentially handled event, source lines 280–327.  The `Bool`
records whether an uncaught exception escaped the handler. -/
def step (env : Env) (w : World) (e : Event) : World × Bool :=
  match e with
  | .modelSelect name => setActiveModel env w name
  | .imageUpload file =>
      match file, w.activeModel with
      | none, _ => (w, false)
      | some _, none => (w, false)
      | some .failed, some _ => (w, false)
      | some (.ok img), some am =>
          let w1 := { w with activeImage := some img }
          (applyTexture w1 am w1.activeImage w1.color, false)
  | .colorChange v =>
      let w1 := { w with color := v }
      match w1.activeModel with
      | some am => (applyTexture w1 am w1.activeImage w1.color, false)
      | none => (w1, false)

/-- Run a sequence of events, each handled to completion before the
next (the claims' sequential-handling assumption). -/
def runEvents (env : Env) (es : List Event) (w : World) : World :=
  es.foldl (fun wa e => (step env wa e).1) w

/-- The initial state of `setupImagePreviewControls`: empty module
cache, `activeModel = null`, `activeImage = null`,
`color = "#ffffff"`, empty scene. -/
def initWorld : World :=
  { cache := fun _ => none
    fetchLog := []
    nextMeshId := 0
    activeModel := none
    activeImage := none
    color := "#ffffff"
    scene := []
    materials := fun _ => none }

/-! ## Invariants -/

/-- Cache entries are keyed by their own name field. -/
def cacheOk (w : World) : Prop :=
  ∀ n m, w.cache n = some m → m.name = n

/-- The supported identifier set of the claims. -/
def supportedName (n : String) : Prop := n = "cup" ∨ n = "cushion"

instance (n : String) : Decidable (supportedName n) := by
  unfold supportedName; infer_instance

/-- The C1 invariant: the mesh attached to the scene, if any, is
exactly `activeModel`'s mesh, and that mesh's material is the
composite of the current `color` and `activeImage`. -/
def sceneConsistent (w : World) : Prop :=
  (w.activeModel = none → w.scene = []) ∧
    ∀ m, w.activeModel = some m →
      w.scene = [m.mesh] ∧
        ∃ r, DRAW_TEXTURE_MAP m.name = some r ∧
          w.materials m.mesh = some (r w.color w.activeImage)

/-- Inductive invariant for the event system. -/
def Inv (w : World) : Prop := cacheOk w ∧ sceneConsistent w

/-- Events whose identifiers are drawn from the supported set. -/
def eventOk : Event → Prop
  | .modelSelect n => supportedName n
  | .imageUpload _ => True
  | .colorChange _ => True

instance (e : Event) : Decidable (eventOk e) := by
  cases e <;> (unfold eventOk; infer_instance)

/-! ## Concrete data for witnesses -/

/-- An environment in which every asset loads and its first child is a
mesh. -/
def envAllMesh : Env := fun _ => .resolvedMesh

/-- An environment in which every asset loads but its first child is
not a mesh (e.g. a group node). -/
def envNonMesh : Env := fun _ => .resolvedNonMesh

/-- An environment in which every fetch rejects (network failure). -/
def envRejected : Env := fun _ => .rejected

/-- A 200×100 bitmap (aspect ratio 2, wider than tall). -/
def wideImage : Image := ⟨200, 100⟩

/-- A 100×200 bitmap (aspect ratio 1/2, taller than wide). -/
def tallImage : Image := ⟨100, 200⟩

/-- The state after a successful initial model-select of "cup". -/
def worldAfterCup : World :=
  (step envAllMesh initWorld (.modelSelect "cup")).1

/-- A short supported event trace used as a witness input. -/
def demoEvents : List Event :=
  [.modelSelect "cup", .imageUpload (some (.ok wideImage)),
    .colorChange "#112233", .modelSelect "cushion"]

/-! ## Helper lemmas -/

lemma load_fields (env : Env) (w : World) (n : String) :
    (loadGLTFObject env w n).1.activeModel = w.activeModel ∧
      (loadGLTFObject env w n).1.activeImage = w.activeImage ∧
      (loadGLTFObject env w n).1.color = w.color ∧
      (loadGLTFObject env w n).1.scene = w.scene ∧
      (loadGLTFObject env w n).1.materials = w.materials := by
  rcases hc : w.cache n with _ | m
  · rcases he : env n with _ | _ | _ <;>
      simp [loadGLTFObject, hc, he, fetchWorld, storeMesh]
  · simp [loadGLTFObject, hc]

lemma load_cacheOk (env : Env) (w : World) (n : String) (h : cacheOk w) :
    cacheOk (loadGLTFObject env w n).1 := by
  rcases hc : w.cache n with _ | m
  · rcases he : env n with _ | _ | _ <;>
      simp only [loadGLTFObject, hc, he, fetchWorld, storeMesh] <;>
      try exact h
    intro k m hk
    by_cases hkn : k = n
    · subst hkn
      simp at hk
      subst hk
      rfl
    · simp [hkn] at hk
      exact h k m hk
  · simp [loadGLTFObject, hc]
    exact h

lemma load_hit (env : Env) (w : World) (n : String) (m : ModelWithMeta)
    (h : w.cache n = some m) : loadGLTFObject env w n = (w, .ok (some m)) := by
  simp [loadGLTFObject, h]

lemma load_ok_cache (env : Env) (w : World) (n : String) (m : ModelWithMeta)
    (h : (loadGLTFObject env w n).2 = .ok (some m)) :
    (loadGLTFObject env w n).1.cache n = some m := by
  rcases hc : w.cache n with _ | m0
  · rcases he : env n with _ | _ | _ <;>
      simp [loadGLTFObject, hc, he, fetchWorld, storeMesh] at h ⊢ <;>
      simp [loadGLTFObject, hc, he, fetchWorld, storeMesh, h]
  · simp [loadGLTFObject, hc] at h ⊢
    exact h

lemma load_ok_name (env : Env) (w : World) (n : String) (m : ModelWithMeta)
    (hw : cacheOk w) (h : (loadGLTFObject env w n).2 = .ok (some m)) :
    m.name = n :=
  (load_cacheOk env w n hw) n m (load_ok_cache env w n m h)

lemma applyTexture_fields (w : World) (m : ModelWithMeta) (i : Option Image)
    (c : String) :
    (applyTexture w m i c).cache = w.cache ∧
      (applyTexture w m i c).activeModel = w.activeModel ∧
      (applyTexture w m i c).activeImage = w.activeImage ∧
      (applyTexture w m i c).color = w.color ∧
      (applyTexture w m i c).scene = w.scene := by
  rcases hd : DRAW_TEXTURE_MAP m.name with _ | r <;> simp [applyTexture, hd]

lemma applyTexture_materials_some (w : World) (m : ModelWithMeta)
    (i : Option Image) (c : String) (r : String → Option Image → Surface)
    (hd : DRAW_TEXTURE_MAP m.name = some r) :
    (applyTexture w m i c).materials m.mesh = some (r c i) := by
  simp [applyTexture, hd]

lemma supported_draw (n : String) (h : supportedName n) :
    ∃ r, DRAW_TEXTURE_MAP n = some r := by
  rcases h with h | h <;> subst h <;> simp [DRAW_TEXTURE_MAP]

lemma setActiveModel_ok (env : Env) (w : World) (n : String) (w1 : World)
    (nm : ModelWithMeta) (rt : String → Option Image → Surface)
    (hl : loadGLTFObject env w n = (w1, .ok (some nm)))
    (hrt : DRAW_TEXTURE_MAP nm.name = some rt) :
    (setActiveModel env w n).1.cache = w1.cache ∧
      (setActiveModel env w n).1.activeModel = some nm ∧
      (setActiveModel env w n).1.activeImage = w1.activeImage ∧
      (setActiveModel env w n).1.color = w1.color ∧
      (setActiveModel env w n).1.scene =
        (match w1.activeModel with
          | some am => w1.scene.filter (fun i => i != am.mesh)
          | none => w1.scene) ++ [nm.mesh] ∧
      (setActiveModel env w n).1.materials = fun i =>
        if i = nm.mesh then some (rt w1.color w1.activeImage)
        else w1.materials i := by
  rcases ha : w1.activeModel with _ | am <;>
    simp [setActiveModel, hl, ha, applyTexture, hrt]

lemma setActiveModel_inv (env : Env) (w : World) (n : String)
    (hI : Inv w) (hn : supportedName n) : Inv (setActiveModel env w n).1 := by
  obtain ⟨hc, hs⟩ := hI
  rcases hl : loadGLTFObject env w n with ⟨w1, r⟩
  have hf := load_fields env w n
  rw [hl] at hf
  have hf1 : w1.activeModel = w.activeModel := hf.1
  have hf2 : w1.activeImage = w.activeImage := hf.2.1
  have hf3 : w1.color = w.color := hf.2.2.1
  have hf4 : w1.scene = w.scene := hf.2.2.2.1
  have hf5 : w1.materials = w.materials := hf.2.2.2.2
  have hc1 : cacheOk w1 := by
    have := load_cacheOk env w n hc
    rwa [hl] at this
  have hs1 : sceneConsistent w1 := by
    refine ⟨?_, ?_⟩
    · intro h0
      rw [hf4]
      exact hs.1 (hf1 ▸ h0)
    · intro m hm
      rw [hf4, hf3, hf2, hf5]
      exact hs.2 m (hf1 ▸ hm)
  rcases r with _ | om
  · simpa [setActiveModel, hl] using ⟨hc1, hs1⟩
  rcases om with _ | nm
  · simpa [setActiveModel, hl] using ⟨hc1, hs1⟩
  -- successful load: the full swap-and-bind
  have hname : nm.name = n := by
    apply load_ok_name env w n nm hc
    rw [hl]
  obtain ⟨rt, hrt⟩ := supported_draw n hn
  have hrt' : DRAW_TEXTURE_MAP nm.name = some rt := by rwa [hname]
  obtain ⟨g1, g2, g3, g4, g5, g6⟩ :=
    setActiveModel_ok env w n w1 nm rt hl hrt'
  constructor
  · intro k m hk
    rw [g1] at hk
    exact hc1 k m hk
  constructor
  · intro h0
    rw [g2] at h0
    exact absurd h0 (by simp)
  · intro m hm
    rw [g2] at hm
    have hmnm : m = nm := by
      exact Option.some_injective _ hm.symm
    subst hmnm
    constructor
    · rw [g5]
      rcases ha : w1.activeModel with _ | am
      · have : w1.scene = [] := by
          rw [hf4]
          exact hs.1 (hf1 ▸ ha)
        simp [ha, this]
      · have : w1.scene = [am.mesh] := by
          rw [hf4]
          exact (hs.2 am (hf1 ▸ ha)).1
        simp [ha, this]
    · refine ⟨rt, hrt', ?_⟩
      rw [g6, g4, g3]
      simp

lemma step_upload_ok (env : Env) (w : World) (img : Image)
    (am : ModelWithMeta) (rt : String → Option Image → Surface)
    (ha : w.activeModel = some am)
    (hrt : DRAW_TEXTURE_MAP am.name = some rt) :
    (step env w (.imageUpload (some (.ok img)))).1.cache = w.cache ∧
      (step env w (.imageUpload (some (.ok img)))).1.activeModel = some am ∧
      (step env w (.imageUpload (some (.ok img)))).1.activeImage = some img ∧
      (step env w (.imageUpload (some (.ok img)))).1.color = w.color ∧
      (step env w (.imageUpload (some (.ok img)))).1.scene = w.scene ∧
      (step env w (.imageUpload (some (.ok img)))).1.materials = fun i =>
        if i = am.mesh then some (rt w.color (some img))
        else w.materials i := by
  simp [step, ha, applyTexture, hrt]

lemma step_color_ok (env : Env) (w : World) (v : String)
    (am : ModelWithMeta) (rt : String → Option Image → Surface)
    (ha : w.activeModel = some am)
    (hrt : DRAW_TEXTURE_MAP am.name = some rt) :
    (step env w (.colorChange v)).1.cache = w.cache ∧
      (step env w (.colorChange v)).1.activeModel = some am ∧
      (step env w (.colorChange v)).1.activeImage = w.activeImage ∧
      (step env w (.colorChange v)).1.color = v ∧
      (step env w (.colorChange v)).1.scene = w.scene ∧
      (step env w (.colorChange v)).1.materials = fun i =>
        if i = am.mesh then some (rt v w.activeImage)
        else w.materials i := by
  simp [step, ha, applyTexture, hrt]

lemma step_inv (env : Env) (w : World) (e : Event)
    (hI : Inv w) (he : eventOk e) : Inv (step env w e).1 := by
  obtain ⟨hc, hs⟩ := hI
  rcases e with n | f | v
  · exact setActiveModel_inv env w n ⟨hc, hs⟩ he
  · -- image upload
    rcases f with _ | d
    · simpa [step] using ⟨hc, hs⟩
    rcases ha : w.activeModel with _ | am
    · simpa [step, ha] using ⟨hc, hs⟩
    rcases d with img | _
    case failed => simpa [step, ha] using ⟨hc, hs⟩
    -- successful decode with an active model
    obtain ⟨hsc, rt, hrt, _⟩ := hs.2 am ha
    obtain ⟨g1, g2, g3, g4, g5, g6⟩ := step_upload_ok env w img am rt ha hrt
    constructor
    · intro k m hk
      rw [g1] at hk
      exact hc k m hk
    constructor
    · intro h0
      rw [g2] at h0
      exact absurd h0 (by simp)
    · intro m hm
      rw [g2] at hm
      have hmam : m = am := Option.some_injective _ hm.symm
      subst hmam
      refine ⟨?_, rt, hrt, ?_⟩
      · rw [g5]
        exact hsc
      · rw [g6, g4, g3]
        simp
  · -- color change
    rcases ha : w.activeModel with _ | am
    · refine ⟨?_, ?_, ?_⟩
      · intro k m hk
        apply hc k m
        simpa [step, ha] using hk
      · intro _
        simpa [step, ha] using hs.1 ha
      · intro m hm
        simp [step, ha] at hm
    obtain ⟨hsc, rt, hrt, _⟩ := hs.2 am ha
    obtain ⟨g1, g2, g3, g4, g5, g6⟩ := step_color_ok env w v am rt ha hrt
    constructor
    · intro k m hk
      rw [g1] at hk
      exact hc k m hk
    constructor
    · intro h0
      rw [g2] at h0
      exact absurd h0 (by simp)
    · intro m hm
      rw [g2] at hm
      have hmam : m = am := Option.some_injective _ hm.symm
      subst hmam
      refine ⟨?_, rt, hrt, ?_⟩
      · rw [g5]
        exact hsc
      · rw [g6, g4, g3]
        simp

lemma inv_init : Inv initWorld := by
  refine ⟨fun n m h => by simp [initWorld] at h, fun h => rfl, fun m hm => ?_⟩
  simp [initWorld] at hm

lemma runEvents_inv (env : Env) (es : List Event) (w : World)
    (hI : Inv w) (he : ∀ e ∈ es, eventOk e) : Inv (runEvents env es w) := by
  induction es generalizing w with
  | nil => exact hI
  | cons e es ih =>
      have h1 : eventOk e := he e (List.mem_cons_self e es)
      have h2 : ∀ x ∈ es, eventOk x := fun x hx => he x (List.mem_cons_of_mem e hx)
      exact ih (step env w e).1 (step_inv env w e hI h1) h2

/-! ## Claim theorems -/

/-- C1: after the preview state controller finishes handling any
sequence of sequentially handled events whose model identifiers are
drawn from the supported set (cup, cushion), the mesh attached to the
scene, if any, is exactly activeModel's mesh, and that mesh's material
is the composite produced from the current values of activeImage and
activeColor — never a stale combination. -/
theorem C1_preview_state_invariant (env : Env) (es : List Event)
    (he : ∀ e ∈ es, eventOk e) :
    sceneConsistent (runEvents env es initWorld) :=
  (runEvents_inv env es initWorld inv_init he).2

theorem C1_preview_state_invariant_witness :
    (∀ e ∈ demoEvents, eventOk e) ∧
      sceneConsistent (runEvents envAllMesh demoEvents initWorld) :=
  ⟨by decide, C1_preview_state_invariant envAllMesh demoEvents (by decide)⟩

/-- C7: whenever model-select resolves its identifier via the model
cache and the cache returns a failure (`null`), the whole preview
state is left unchanged: activeModel, activeImage and color keep their
prior values, the scene is untouched, and every mesh keeps its
material; no exception escapes either. -/
theorem C7_cache_failure_leaves_state_unchanged (env : Env) (w : World)
    (n : String) (h : (loadGLTFObject env w n).2 = .ok none) :
    (setActiveModel env w n).1.activeModel = w.activeModel ∧
      (setActiveModel env w n).1.activeImage = w.activeImage ∧
      (setActiveModel env w n).1.color = w.color ∧
      (setActiveModel env w n).1.scene = w.scene ∧
      (setActiveModel env w n).1.materials = w.materials ∧
      (setActiveModel env w n).2 = false := by
  rcases hl : loadGLTFObject env w n with ⟨w1, r⟩
  have h2 : r = .ok none := by rw [hl] at h; exact h
  subst h2
  have hf := load_fields env w n
  rw [hl] at hf
  have hset : setActiveModel env w n = (w1, false) := by
    simp [setActiveModel, hl]
  rw [hset]
  exact ⟨hf.1, hf.2.1, hf.2.2.1, hf.2.2.2.1, hf.2.2.2.2, rfl⟩

theorem C7_cache_failure_leaves_state_unchanged_witness :
    (setActiveModel envNonMesh initWorld "cup").1.activeModel
        = initWorld.activeModel ∧
      (setActiveModel envNonMesh initWorld "cup").1.activeImage
        = initWorld.activeImage ∧
      (setActiveModel envNonMesh initWorld "cup").1.color = initWorld.color ∧
      (setActiveModel envNonMesh initWorld "cup").1.scene = initWorld.scene ∧
      (setActiveModel envNonMesh initWorld "cup").1.materials
        = initWorld.materials ∧
      (setActiveModel envNonMesh initWorld "cup").2 = false :=
  C7_cache_failure_leaves_state_unchanged envNonMesh initWorld "cup" (by decide)

/-- C9: if a first `loadGLTFObject` call succeeds, a second call with
the same identifier returns the very same cached entry (cache
identity) and leaves the world — in particular the fetch log —
untouched: no re-fetch happens. -/
theorem C9_cache_identity (env : Env) (w : World) (n : String)
    (m : ModelWithMeta) (h : (loadGLTFObject env w n).2 = .ok (some m)) :
    loadGLTFObject env (loadGLTFObject env w n).1 n =
      ((loadGLTFObject env w n).1, .ok (some m)) :=
  load_hit env (loadGLTFObject env w n).1 n m (load_ok_cache env w n m h)

theorem C9_cache_identity_witness :
    loadGLTFObject envAllMesh (loadGLTFObject envAllMesh initWorld "cup").1
        "cup" =
      ((loadGLTFObject envAllMesh initWorld "cup").1, .ok (some ⟨"cup", 0⟩)) :=
  C9_cache_identity envAllMesh initWorld "cup" ⟨"cup", 0⟩ (by decide)

/-- C6 counterexample: when the first load of "cup" resolves but its
first child is not a mesh, the cache is left unmodified, so a second
`loadGLTFObject "cup"` call performs a second network fetch — the
fetch is NOT performed at most once per distinct identifier. -/
theorem C6_counterexample :
    (loadGLTFObject envNonMesh
        (loadGLTFObject envNonMesh initWorld "cup").1 "cup").1.fetchLog
      = ["cup", "cup"] ∧
      ¬ ((loadGLTFObject envNonMesh
          (loadGLTFObject envNonMesh initWorld "cup").1 "cup").1.fetchLog.count
            "cup" ≤ 1) := by
  constructor
  · decide
  · decide

/-- C6 (amended): the fetch for an identifier is performed at most
once after a call has succeeded — once an entry is cached, repeat
calls never fetch again; but when a call fails (rejected fetch or
non-mesh first child), the cache is left unmodified and the next call
with the same identifier fetches again. -/
theorem C6_amended_fetch_once_after_success (env : Env) (w : World)
    (n : String) :
    (∀ m, (loadGLTFObject env w n).2 = .ok (some m) →
        (loadGLTFObject env (loadGLTFObject env w n).1 n).1.fetchLog =
          (loadGLTFObject env w n).1.fetchLog) ∧
      ((∀ m, (loadGLTFObject env w n).2 ≠ .ok (some m)) →
        (loadGLTFObject env (loadGLTFObject env w n).1 n).1.fetchLog =
          (loadGLTFObject env w n).1.fetchLog ++ [n]) := by
  constructor
  · intro m h
    rw [load_hit env (loadGLTFObject env w n).1 n m (load_ok_cache env w n m h)]
  · intro h
    rcases hc : w.cache n with _ | m0
    · rcases he : env n with _ | _ | _
      case rejected => simp [loadGLTFObject, hc, he, fetchWorld]
      case resolvedNonMesh => simp [loadGLTFObject, hc, he, fetchWorld]
      case resolvedMesh =>
        exfalso
        apply h ⟨n, w.nextMeshId⟩
        simp [loadGLTFObject, hc, he, fetchWorld, storeMesh]
    · exfalso
      apply h m0
      simp [loadGLTFObject, hc]

theorem C6_amended_fetch_once_after_success_witness :
    (loadGLTFObject envAllMesh (loadGLTFObject envAllMesh initWorld "cup").1
        "cup").1.fetchLog =
      (loadGLTFObject envAllMesh initWorld "cup").1.fetchLog :=
  (C6_amended_fetch_once_after_success envAllMesh initWorld "cup").1
    ⟨"cup", 0⟩ (by decide)

/-- C4 counterexample: an image-upload handled while no model is
active does NOT retain the decoded image — the handler returns before
decoding, so activeImage stays `none`. -/
theorem C4_counterexample :
    initWorld.activeModel = none ∧
      (step envAllMesh initWorld
          (.imageUpload (some (.ok wideImage)))).1.activeImage = none ∧
      (step envAllMesh initWorld
          (.imageUpload (some (.ok wideImage)))).1.activeImage
        ≠ some wideImage := by
  refine ⟨rfl, rfl, by decide⟩

/-- C4 (amended): if image-upload is handled while no model is active,
the event is a complete no-op: the file is not decoded, activeImage
keeps its prior value, and nothing else changes; only uploads made
while a model is active replace activeImage. -/
theorem C4_amended_upload_noop_without_model (env : Env) (w : World)
    (f : Option DecodeOutcome) (h : w.activeModel = none) :
    step env w (.imageUpload f) = (w, false) := by
  rcases f with _ | d
  · simp [step]
  · rcases d with img | _ <;> simp [step, h]

theorem C4_amended_upload_noop_without_model_witness :
    step envAllMesh initWorld (.imageUpload (some (.ok wideImage)))
      = (initWorld, false) :=
  C4_amended_upload_noop_without_model envAllMesh initWorld
    (some (.ok wideImage)) rfl

/-- C5: the claim that every failure kind is handled locally is wrong
for AssetLoadFailure: a rejected asset fetch makes `loadGLTFObject`
throw (nothing catches the `loadAsync` rejection), and the rejection
propagates out of the model-select handler to the global handler.
The other failure kinds are indeed silent: a non-mesh first child
yields a null return, a decode failure is swallowed by the
try/catch, and a missing drawing routine leaves the world
untouched. -/
theorem C5_asset_rejection_escapes_handler :
    (step envRejected initWorld (.modelSelect "cup")).2 = true ∧
      (step envNonMesh initWorld (.modelSelect "cup")).2 = false ∧
      (step envRejected worldAfterCup (.imageUpload (some .failed))).2
        = false ∧
      (step envRejected worldAfterCup (.colorChange "#000000")).2 = false ∧
      applyTexture worldAfterCup ⟨"teapot", 0⟩ worldAfterCup.activeImage
          worldAfterCup.color = worldAfterCup := by
  refine ⟨rfl, rfl, ?_, ?_, rfl⟩
  · decide
  · decide

/-! ## Fitted-placement arithmetic (helper lemmas for C2/C3) -/

lemma cup_ratio (img : Image) (hw : 0 < img.width) (hh : 0 < img.height) :
    (cupDrawRect img).w / (cupDrawRect img).h
      = 3 / 4 * (img.width / img.height) := by
  have hW : img.width ≠ 0 := ne_of_gt hw
  have hH : img.height ≠ 0 := ne_of_gt hh
  simp only [cupDrawRect, canvasWidth, canvasHeight]
  split_ifs with h1 h2
  · field_simp
    ring
  · field_simp
    ring
  · have h3 : img.width = img.height := by
      have e1 : img.width / img.height = 1 :=
        le_antisymm (not_lt.1 h1) (not_lt.1 h2)
      field_simp at e1
      exact e1
    rw [h3]
    field_simp
    norm_num

lemma cushion_ratio (img : Image) (hw : 0 < img.width) (hh : 0 < img.height) :
    ((cushionDrawRect img).w + 400) / ((cushionDrawRect img).h + 400)
      = img.width / img.height := by
  have hW : img.width ≠ 0 := ne_of_gt hw
  have hH : img.height ≠ 0 := ne_of_gt hh
  have hA : 0 < img.width / img.height := div_pos hw hh
  simp only [cushionDrawRect, canvasWidth, canvasHeight]
  split_ifs with h1 h2
  · have hden : (2048 : ℚ)
        - 2 * (200 + (2048 - 2048 / (img.width / img.height)) / 2) + 400
        = 2048 / (img.width / img.height) := by ring
    rw [hden]
    norm_num
  · field_simp
    ring
  · have h3 : img.width = img.height := by
      have e1 : img.width / img.height = 1 :=
        le_antisymm (not_lt.1 h1) (not_lt.1 h2)
      field_simp at e1
      exact e1
    rw [h3]
    norm_num
    field_simp

lemma cup_center (img : Image) :
    (cupDrawRect img).x + (cupDrawRect img).w / 2
        = canvasWidth * 2 + 150 + (canvasWidth - canvasWidth / 4) / 2
      ∧ (cupDrawRect img).y + (cupDrawRect img).h / 2
        = -1 * (canvasHeight + canvasHeight / 2) + canvasHeight / 2 := by
  constructor <;>
    · simp only [cupDrawRect, canvasWidth, canvasHeight]
      split_ifs <;> ring

lemma cushion_center (img : Image) :
    (cushionDrawRect img).x + (cushionDrawRect img).w / 2
        = -canvasWidth + canvasWidth / 2
      ∧ (cushionDrawRect img).y + (cushionDrawRect img).h / 2
        = -2 * canvasHeight + canvasHeight / 2 := by
  constructor <;>
    · simp only [cushionDrawRect, canvasWidth, canvasHeight]
      split_ifs <;> ring

/-- C2 counterexample: for the cup routine, a 200×100 image (aspect
ratio 2) is drawn as a 1536×1024 rectangle, whose width-to-height
ratio 3/2 differs from the image's ratio 2: the drawn ratio does NOT
equal the image's ratio, so the image is distorted. -/
theorem C2_counterexample :
    (cupDrawRect wideImage).w / (cupDrawRect wideImage).h
      ≠ wideImage.width / wideImage.height := by
  norm_num [cupDrawRect, wideImage, canvasWidth, canvasHeight]

/-- C2 (amended): for every non-degenerate image, each routine clamps
one axis and scales the other by the aspect-ratio factor relative to a
square, and centers the image within its target region on both axes;
the drawn width-to-height ratio equals the image's ratio multiplied by
the region's ratio — 3/4 for the cup (1536×2048 region), and 1 for
the cushion only before its fixed 200-unit inset is subtracted (the
inset further distorts the ratio whenever the aspect ratio is not 1).
The ratio is preserved exactly only in the cushion's pre-inset fitted
box. -/
theorem C2_amended_aspect_fit (img : Image) (hw : 0 < img.width)
    (hh : 0 < img.height) :
    ((cupDrawRect img).w / (cupDrawRect img).h
        = 3 / 4 * (img.width / img.height)
      ∧ (cupDrawRect img).x + (cupDrawRect img).w / 2
        = canvasWidth * 2 + 150 + (canvasWidth - canvasWidth / 4) / 2
      ∧ (cupDrawRect img).y + (cupDrawRect img).h / 2
        = -1 * (canvasHeight + canvasHeight / 2) + canvasHeight / 2)
    ∧ (((cushionDrawRect img).w + 400) / ((cushionDrawRect img).h + 400)
        = img.width / img.height
      ∧ (cushionDrawRect img).x + (cushionDrawRect img).w / 2
        = -canvasWidth + canvasWidth / 2
      ∧ (cushionDrawRect img).y + (cushionDrawRect img).h / 2
        = -2 * canvasHeight + canvasHeight / 2) :=
  ⟨⟨cup_ratio img hw hh, (cup_center img).1, (cup_center img).2⟩,
    cushion_ratio img hw hh, (cushion_center img).1, (cushion_center img).2⟩

theorem C2_amended_aspect_fit_witness :
    (0 : ℚ) < wideImage.width ∧ (0 : ℚ) < wideImage.height ∧
      (cupDrawRect wideImage).w / (cupDrawRect wideImage).h
        = 3 / 4 * (wideImage.width / wideImage.height) :=
  ⟨by decide, by decide,
    (C2_amended_aspect_fit wideImage (by decide) (by decide)).1.1⟩

/-- C3 counterexample: for the cushion routine and a 200×100 image
(aspect ratio 2), the drawn rectangle is 1648×624: its height 624 is
neither the drawn width divided by the aspect ratio (824) nor the
canvas width divided by the aspect ratio (1024), and its width 1648 is
not the full canvas width — the drawn height is NOT the region width
divided by the image aspect ratio. -/
theorem C3_counterexample :
    (cushionDrawRect wideImage).h
        ≠ (cushionDrawRect wideImage).w / (wideImage.width / wideImage.height)
      ∧ (cushionDrawRect wideImage).w ≠ canvasWidth
      ∧ (cushionDrawRect wideImage).h
        ≠ canvasWidth / (wideImage.width / wideImage.height) := by
  refine ⟨?_, ?_, ?_⟩ <;>
    norm_num [cushionDrawRect, wideImage, canvasWidth, canvasHeight]

/-- C3 (amended): for an image with aspect ratio > 1 in the cushion
routine, the drawn width is clamped to the inset region width (canvas
width minus twice the 200-unit inset) and the drawn height is the full
canvas height divided by the aspect ratio minus twice the 200-unit
inset (the fitted box of the full canvas, shrunk by the inset),
centered in the height axis; symmetrically for aspect ratio < 1. -/
theorem C3_amended_cushion_fit (img : Image) (hw : 0 < img.width)
    (hh : 0 < img.height) :
    (1 < img.width / img.height →
        (cushionDrawRect img).w = canvasWidth - 2 * 200
          ∧ (cushionDrawRect img).h
            = canvasHeight / (img.width / img.height) - 2 * 200
          ∧ (cushionDrawRect img).y + (cushionDrawRect img).h / 2
            = -2 * canvasHeight + canvasHeight / 2)
      ∧ (img.width / img.height < 1 →
        (cushionDrawRect img).h = canvasHeight - 2 * 200
          ∧ (cushionDrawRect img).w
            = canvasWidth * (img.width / img.height) - 2 * 200
          ∧ (cushionDrawRect img).x + (cushionDrawRect img).w / 2
            = -canvasWidth + canvasWidth / 2) := by
  constructor
  · intro h1
    simp only [cushionDrawRect, canvasWidth, canvasHeight]
    split_ifs with hgt hlt <;>
      first
        | exact absurd h1 hgt
        | refine ⟨?_, ?_, ?_⟩ <;> · simp only [Prod.fst, Prod.snd]; try ring
  · intro h1
    simp only [cushionDrawRect, canvasWidth, canvasHeight]
    split_ifs with hgt hlt <;>
      first
        | exact absurd h1 (asymm hgt)
        | exact absurd h1 hlt
        | refine ⟨?_, ?_, ?_⟩ <;> · simp only [Prod.fst, Prod.snd]; try ring

theorem C3_amended_cushion_fit_witness :
    (0 : ℚ) < wideImage.width ∧ (0 : ℚ) < wideImage.height ∧
      1 < wideImage.width / wideImage.height ∧
      (cushionDrawRect wideImage).w = canvasWidth - 2 * 200 := by
  refine ⟨by decide, by decide, by norm_num [wideImage], ?_⟩
  exact ((C3_amended_cushion_fit wideImage (by decide) (by decide)).1
    (by norm_num [wideImage])).1

/-- C8: for every identifier with a registered drawing routine and
every color, compositing with no image yields a fresh 2048×2048
surface in which every pixel is the flat fill color — no drawing
artifacts. -/
theorem C8_flat_fill_without_image (name : String) (color : String)
    (s : Surface) (p : ℚ × ℚ) (h : composite name color none = some s) :
    s.width = canvasWidth ∧ s.height = canvasHeight ∧
      Surface.pixelAt s p = .fill color := by
  by_cases h1 : name = "cup"
  · subst h1
    simp only [composite, DRAW_TEXTURE_MAP, if_pos rfl] at h
    obtain rfl := Option.some_injective _ h
    simp [cupDraw, Surface.pixelAt]
  · by_cases h2 : name = "cushion"
    · subst h2
      simp only [composite, DRAW_TEXTURE_MAP,
        if_neg (by decide : ¬("cushion" = "cup")), if_pos rfl] at h
      obtain rfl := Option.some_injective _ h
      simp [cushionDraw, Surface.pixelAt]
    · simp [composite, DRAW_TEXTURE_MAP, h1, h2] at h

theorem C8_flat_fill_without_image_witness :
    composite "cup" "#112233" none = some (cupDraw "#112233" none) ∧
      (cupDraw "#112233" none).width = canvasWidth ∧
      (cupDraw "#112233" none).height = canvasHeight ∧
      Surface.pixelAt (cupDraw "#112233" none) (0, 0) = .fill "#112233" :=
  ⟨rfl, C8_flat_fill_without_image "cup" "#112233"
    (cupDraw "#112233" none) (0, 0) rfl⟩

/-- C10: re-issuing model-select with the identifier of the
already-active model is observationally idempotent: provided the
invariant holds (the model is cached, its mesh is the one attached,
and its material is the composite of the current color and image), the
event returns the cached entry, removes and re-adds the same mesh, and
rebinds a material with identical pixel content, leaving the state
exactly equal to what it was — and no exception escapes. -/
theorem C10_reselect_idempotent (env : Env) (w : World) (m : ModelWithMeta)
    (rt : String → Option Image → Surface)
    (h1 : w.activeModel = some m)
    (h2 : w.cache m.name = some m)
    (h3 : DRAW_TEXTURE_MAP m.name = some rt)
    (h4 : w.scene = [m.mesh])
    (h5 : w.materials m.mesh = some (rt w.color w.activeImage)) :
    step env w (.modelSelect m.name) = (w, false) := by
  have hl : loadGLTFObject env w m.name = (w, .ok (some m)) :=
    load_hit env w m.name m h2
  obtain ⟨c, log, nid, am, ai, col, sc, mats⟩ := w
  simp only at h1 h4 h5
  subst h1
  subst h4
  simp only [step, setActiveModel, hl, applyTexture, h3]
  refine Prod.ext ?_ rfl
  simp only [World.mk.injEq]
  refine ⟨trivial, trivial, trivial, trivial, trivial, trivial, ?_, ?_⟩
  · simp
  · funext i
    by_cases hi : i = m.mesh <;> simp [hi, h5.symm]

theorem C10_reselect_idempotent_witness :
    step envAllMesh worldAfterCup (.modelSelect "cup")
      = (worldAfterCup, false) :=
  C10_reselect_idempotent envAllMesh worldAfterCup ⟨"cup", 0⟩ cupDraw
    rfl rfl rfl rfl rfl

end ItemCustomization
